import Mathlib

/-
Verification development for the token-saver repository.

Strings are modelled as List Char; the JS string length (UTF-16 code units)
coincides with the list length on the ASCII texts handled here.  Regexes from
the source are transcribed item by item into a small backtracking matcher
(RItem / matchItems) that follows the JS semantics: greedy and lazy
quantifiers over single character classes, ordered alternation of literals,
word boundaries, multiline anchors, and global leftmost replacement that
scans the original text and resumes after each match.
-/

set_option maxRecDepth 8000

namespace TokenSaver

/-- Apostrophe character, kept out of string literals. -/
def apoC : Char := Char.ofNat 39

/-- JS whitespace class for the backslash-s escape, restricted to the
whitespace characters that can occur in this repository: space, tab, newline,
carriage return, vertical tab, form feed and no-break space. -/
def isWs (c : Char) : Bool :=
  c = ' ' || c = '\t' || c = '\n' || c = '\r' ||
  c = Char.ofNat 11 || c = Char.ofNat 12 || c = Char.ofNat 160

/-- JS word-character class (backslash-w): ASCII letters, digits, underscore. -/
def isWordChar (c : Char) : Bool :=
  ('a' ≤ c && c ≤ 'z') || ('A' ≤ c && c ≤ 'Z') || ('0' ≤ c && c ≤ '9') || c = '_'

/-- JS dot without the s flag: any character except line terminators. -/
def isDotChar (c : Char) : Bool :=
  !(c = '\n' || c = '\r' || c = Char.ofNat 0x2028 || c = Char.ofNat 0x2029)

/-- JS dot with the s flag: any character. -/
def anyChar (_ : Char) : Bool := true

/-- Bullet-marker class from the source class [-bullet-asterisk]. -/
def isBulletChar (c : Char) : Bool := c = '-' || c = '•' || c = '*'

/-- Case-insensitive character comparison (the regex i flag; ASCII folding). -/
def charEqCI (a b : Char) : Bool := a.toLower = b.toLower

/-- Strip a case-sensitive literal from the front of the text. -/
def dropLit : List Char → List Char → Option (List Char)
  | [], l => some l
  | _ :: _, [] => none
  | p :: ps, c :: cs => if p = c then dropLit ps cs else none

/-- Strip a case-insensitive literal from the front of the text. -/
def dropLitCI : List Char → List Char → Option (List Char)
  | [], l => some l
  | _ :: _, [] => none
  | p :: ps, c :: cs => if charEqCI p c then dropLitCI ps cs else none

/-- One syntactic item of a transcribed regex. -/
inductive RItem where
  | lit (s : List Char)
  | litCI (s : List Char)
  | cls (p : Char → Bool) (low : Nat) (high : Option Nat) (lzy : Bool) (cap : Bool)
  | alts (ss : List (List Char)) (ci : Bool) (cap : Bool)
  | wb
  | bol
  | eolm
  | nlOrEnd

/-- Whether an optional character is a word character (for word boundaries). -/
def wordAt (oc : Option Char) : Bool :=
  match oc with
  | none => false
  | some c => isWordChar c

/-- The character directly before the rest of the scan, after consuming some text. -/
def lastCharOf (consumed : List Char) (prev : Option Char) : Option Char :=
  match consumed.getLast? with
  | some c => some c
  | none => prev

/-- Candidate run lengths for a quantified character class: ascending for a
lazy quantifier, descending for a greedy one (JS backtracking order). -/
def clsCands (low mx : Nat) (lzy : Bool) : List Nat :=
  if lzy then (List.range (mx + 1)).filter (fun n => low ≤ n)
  else ((List.range (mx + 1)).filter (fun n => low ≤ n)).reverse

/-- Backtracking matcher: try to match the item list at the current position,
given the character just before the position (none at text start).  On success
return the consumed text, the remaining text and the captured groups in order. -/
def matchItems : List RItem → Option Char → List Char →
    Option (List Char × List Char × List (List Char))
  | [], _, l => some ([], l, [])
  | RItem.lit s :: rest, prev, l =>
    match dropLit s l with
    | none => none
    | some l2 =>
      match matchItems rest (lastCharOf s prev) l2 with
      | none => none
      | some (c2, rem, caps) => some (s ++ c2, rem, caps)
  | RItem.litCI s :: rest, prev, l =>
    match dropLitCI s l with
    | none => none
    | some l2 =>
      let consumed := l.take s.length
      match matchItems rest (lastCharOf consumed prev) l2 with
      | none => none
      | some (c2, rem, caps) => some (consumed ++ c2, rem, caps)
  | RItem.cls p low high lzy cap :: rest, prev, l =>
    let run := l.takeWhile p
    let mx := match high with
      | none => run.length
      | some h => min run.length h
    (clsCands low mx lzy).findSome? (fun n =>
      let consumed := l.take n
      match matchItems rest (lastCharOf consumed prev) (l.drop n) with
      | none => none
      | some (c2, rem, caps) =>
        some (consumed ++ c2, rem, (if cap then [consumed] else []) ++ caps))
  | RItem.alts ss ci cap :: rest, prev, l =>
    ss.findSome? (fun s =>
      match (if ci then dropLitCI s l else dropLit s l) with
      | none => none
      | some l2 =>
        let consumed := l.take s.length
        match matchItems rest (lastCharOf consumed prev) l2 with
        | none => none
        | some (c2, rem, caps) =>
          some (consumed ++ c2, rem, (if cap then [consumed] else []) ++ caps))
  | RItem.wb :: rest, prev, l =>
    if wordAt prev != wordAt l.head? then matchItems rest prev l else none
  | RItem.bol :: rest, prev, l =>
    match prev with
    | none => matchItems rest prev l
    | some c => if c = '\n' then matchItems rest prev l else none
  | RItem.eolm :: rest, prev, l =>
    match l.head? with
    | none => matchItems rest prev l
    | some c => if c = '\n' then matchItems rest prev l else none
  | RItem.nlOrEnd :: rest, prev, l =>
    match l with
    | '\n' :: l2 =>
      (match matchItems rest (some '\n') l2 with
       | none => none
       | some (c2, rem, caps) => some ('\n' :: c2, rem, caps))
    | [] => matchItems rest prev []
    | _ :: _ => none

/-- A rewrite rule: a transcribed pattern and a replacement built from captures. -/
structure RRule where
  items : List RItem
  subst : List (List Char) → List Char

/-- Global replacement scan (String.prototype.replace with the g flag): walk
the original text left to right, at each position try the pattern; on a match
emit the replacement and resume after the consumed text, otherwise copy one
character.  The fuel starts at the text length and bounds the walk. -/
def replaceScanAux (r : RRule) : Nat → Option Char → List Char → List Char
  | 0, _, l => l
  | _ + 1, _, [] => []
  | fuel + 1, prev, c :: cs =>
    match matchItems r.items prev (c :: cs) with
    | some (consumed, rem, caps) =>
      match consumed with
      | [] => r.subst caps ++ c :: replaceScanAux r fuel (some c) cs
      | _ :: _ => r.subst caps ++ replaceScanAux r fuel (lastCharOf consumed prev) rem
    | none => c :: replaceScanAux r fuel (some c) cs

/-- Apply one global regex replacement to a text. -/
def jsReplace (r : RRule) (l : List Char) : List Char :=
  replaceScanAux r l.length none l

/-- Whether the pattern matches at some position of the text (same walk as
the replacement scan). -/
def hasMatchAux (items : List RItem) : Nat → Option Char → List Char → Bool
  | 0, _, _ => false
  | _ + 1, _, [] => false
  | fuel + 1, prev, c :: cs =>
    (matchItems items prev (c :: cs)).isSome || hasMatchAux items fuel (some c) cs

/-- The pattern fires somewhere in the text. -/
def hasMatchIn (items : List RItem) (l : List Char) : Bool :=
  hasMatchAux items l.length none l

/-- Count the global matches of a pattern in a text (String.prototype.match
with the g flag, taking the length of the result). -/
def countScanAux (items : List RItem) : Nat → Option Char → List Char → Nat
  | 0, _, _ => 0
  | _ + 1, _, [] => 0
  | fuel + 1, prev, c :: cs =>
    match matchItems items prev (c :: cs) with
    | some (consumed, rem, _) =>
      match consumed with
      | [] => 1 + countScanAux items fuel (some c) cs
      | _ :: _ => 1 + countScanAux items fuel (lastCharOf consumed prev) rem
    | none => countScanAux items fuel (some c) cs

/-- Number of matches of a pattern in a text. -/
def countMatches (items : List RItem) (l : List Char) : Nat :=
  countScanAux items l.length none l

/-- A pattern that fires nowhere leaves the scan unchanged. -/
theorem replaceScanAux_of_no_match (r : RRule) :
    ∀ (fuel : Nat) (prev : Option Char) (l : List Char),
      hasMatchAux r.items fuel prev l = false →
      replaceScanAux r fuel prev l = l := by
  intro fuel
  induction fuel with
  | zero => intro prev l _; rfl
  | succ n ih =>
    intro prev l h
    cases l with
    | nil => rfl
    | cons c cs =>
      cases hm : matchItems r.items prev (c :: cs) with
      | some v => simp [hasMatchAux, hm] at h
      | none =>
        simp only [hasMatchAux, hm, Option.isSome_none, Bool.false_or] at h
        simp only [replaceScanAux, hm]
        rw [ih (some c) cs h]

/-- A rule whose pattern does not fire anywhere is a no-op. -/
theorem jsReplace_of_no_match (r : RRule) (l : List Char)
    (h : hasMatchIn r.items l = false) : jsReplace r l = l :=
  replaceScanAux_of_no_match r l.length none l h

/-- Math.ceil on the exact rational value of a JS division. -/
def jsMathCeil (q : ℚ) : ℤ := Int.ceil q

/-- Math.round: round half toward positive infinity. -/
def jsMathRound (q : ℚ) : ℤ := Int.floor (q + 1 / 2)

/-- Math.floor. -/
def jsMathFloor (q : ℚ) : ℤ := Int.floor q

/-- Capture group access: group i of the capture list, empty if absent. -/
def capGet (caps : List (List Char)) (i : Nat) : List Char :=
  caps.getD i []

/-- Whether the needle occurs as a contiguous segment of the haystack
(String.prototype.includes). -/
def hasPrefixChars : List Char → List Char → Bool
  | [], _ => true
  | _ :: _, [] => false
  | p :: ps, c :: cs => p = c && hasPrefixChars ps cs

/-- Substring containment test used for the filename dispatch. -/
def containsSeg : List Char → List Char → Bool
  | [], needle => needle.isEmpty
  | c :: cs, needle => hasPrefixChars needle (c :: cs) || containsSeg cs needle

/-- Suffix test (String.prototype.endsWith). -/
def endsWithSeg (l suffix : List Char) : Bool :=
  hasPrefixChars suffix.reverse l.reverse

/-- Shared regex pieces. -/
def wsPlus : RItem := RItem.cls isWs 1 none false false

/-- Zero-or-more whitespace, greedy. -/
def wsStar : RItem := RItem.cls isWs 0 none false false

/-- Captured greedy dot-plus. -/
def dotPlusCap : RItem := RItem.cls isDotChar 1 none false true

/-- Captured lazy dot-plus. -/
def dotLazyCap : RItem := RItem.cls isDotChar 1 none true true

/-- Captured greedy one-or-more non-comma characters (class [^,], which also
matches newlines). -/
def notCommaCap : RItem := RItem.cls (fun c => !(c = ',')) 1 none false true

/-- Greedy dot-star under the s flag (any characters). -/
def anyStar : RItem := RItem.cls anyChar 0 none false false

/-- Filler adverbs of the compressor rule 6 and of the analyzer filler class. -/
def fillerList : List (List Char) :=
  [("very".data), ("quite".data), ("rather".data), ("really".data),
   ("actually".data), ("basically".data), ("essentially".data)]

/-- Stop words of the analyzer repetitive class and of the key-value
compaction in convertToAINotation. -/
def stopWordsList : List (List Char) :=
  [("the".data), ("and".data), ("or".data), ("but".data), ("with".data),
   ("from".data), ("into".data), ("during".data), ("including".data)]

namespace AICompressor

/-- Math.ceil(text.length / 4), from compressor.js estimateTokens. -/
def estimateTokens (text : List Char) : ℤ := jsMathCeil ((text.length : ℚ) / 4)

/-- Pattern 1 of compressionPatterns: conditional statements, with
replacement dollar1 arrow dollar2 (flags gi). -/
def rule1 : RRule :=
  ⟨[RItem.litCI ("When".data), wsPlus, notCommaCap, RItem.lit (",".data), wsStar, dotPlusCap],
   fun caps => capGet caps 0 ++ (" → ".data) ++ capGet caps 1⟩

/-- Pattern 2: purpose statements (flags gi). -/
def rule2 : RRule :=
  ⟨[RItem.litCI ("In order to".data), wsPlus, notCommaCap, RItem.lit (",".data), wsStar, dotPlusCap],
   fun caps => ("GOAL: ".data) ++ capGet caps 0 ++ (" → ".data) ++ capGet caps 1⟩

/-- Pattern 3: importance markers (flags gi). -/
def rule3 : RRule :=
  ⟨[RItem.litCI ("It is important to".data), wsPlus, dotPlusCap],
   fun caps => ("CRITICAL: ".data) ++ capGet caps 0⟩

/-- Pattern 4: instructions (flags gi). -/
def rule4 : RRule :=
  ⟨[RItem.litCI ("You should".data), wsPlus, dotPlusCap],
   fun caps => ("DO: ".data) ++ capGet caps 0⟩

/-- Pattern 5: remove politeness padding (flags gi). -/
def rule5 : RRule :=
  ⟨[RItem.litCI ("Please".data), wsPlus, dotPlusCap],
   fun caps => capGet caps 0⟩

/-- Pattern 6: remove filler words, a word-boundary alternation followed by
one-or-more whitespace, replaced by the empty string (flags gi). -/
def rule6 : RRule :=
  ⟨[RItem.wb, RItem.alts fillerList true true, wsPlus], fun _ => []⟩

/-- The six generic compression patterns, in source order. -/
def genericRules : List RRule := [rule1, rule2, rule3, rule4, rule5, rule6]

/-- The forEach loop of applyCompressionRules over compressionPatterns. -/
def applyGenericPatterns (content : List Char) : List Char :=
  genericRules.foldl (fun acc r => jsReplace r acc) content

/-- First compressUserFile pattern: three literals joined by greedy dot-star
with a trailing dot-star, flags gs. -/
def userP1 : RRule :=
  ⟨[RItem.lit ("Senior IT engineer".data), anyStar,
    RItem.lit ("Missing Pieces Psychology".data), anyStar,
    RItem.lit ("ORO Homes LLC".data), anyStar],
   fun _ => ("ROLES: IT-eng + COO(MPP) + owner(ORO)\nCONTEXT: day-job + 2businesses, ORO-priority, time-limited".data)⟩

/-- Second compressUserFile pattern (problem-solving style), flags gs. -/
def userP2 : RRule :=
  ⟨[RItem.lit ("Forward momentum".data), anyStar,
    RItem.lit ("Select the path that gets closest".data), anyStar],
   fun _ => ("APPROACH: momentum→brainstorm→optimize→data-backed→simulate-unknowns".data)⟩

/-- File-specific rewrite for filenames containing USER.md. -/
def compressUserFile (content : List Char) : List Char :=
  jsReplace userP2 (jsReplace userP1 content)

/-- First compressMemoryFile pattern (no trailing dot-star), flags gs. -/
def memP1 : RRule :=
  ⟨[RItem.lit ("When Ruben greets me in the morning".data), anyStar,
    RItem.lit (("Check if there".data) ++ [apoC] ++ ("s anything urgent".data))],
   fun _ => ("MORNING: greeting → review(todos,pending,urgent)".data)⟩

/-- Second compressMemoryFile pattern, flags gs. -/
def memP2 : RRule :=
  ⟨[RItem.lit ("Direct, practical".data), anyStar,
    RItem.lit ("Have research and data ready BEFORE Ruben asks".data), anyStar],
   fun _ => ("STYLE: direct,practical,proactive\nRULE: research-ready pre-ask, delegate>30s".data)⟩

/-- File-specific rewrite for filenames containing MEMORY.md. -/
def compressMemoryFile (content : List Char) : List Char :=
  jsReplace memP2 (jsReplace memP1 content)

/-- The compressAgentsFile pattern (no trailing dot-star), flags gs. -/
def agentsP : RRule :=
  ⟨[RItem.lit ("Ground every claim".data), anyStar,
    RItem.lit (("check data, don".data) ++ [apoC] ++ ("t assume".data))],
   fun _ => ("PRINCIPLES: ground-claims, express-uncertainty, verify-first, confidence-thresholds".data)⟩

/-- File-specific rewrite for filenames containing AGENTS.md. -/
def compressAgentsFile (content : List Char) : List Char :=
  jsReplace agentsP content

/-- applyCompressionRules: the six generic patterns, then the filename-keyed
file-specific compression (filename.includes dispatch, in source order). -/
def applyCompressionRules (content filename : List Char) : List Char :=
  let compressed := applyGenericPatterns content
  if containsSeg filename ("USER.md".data) then compressUserFile compressed
  else if containsSeg filename ("MEMORY.md".data) then compressMemoryFile compressed
  else if containsSeg filename ("AGENTS.md".data) then compressAgentsFile compressed
  else compressed

/-- Bullet normalization of convertToAINotation (flags gm). -/
def bulletRule : RRule :=
  ⟨[RItem.bol, wsStar, RItem.cls isBulletChar 1 (some 1) false false, wsStar, dotPlusCap, RItem.eolm],
   fun caps => ("• ".data) ++ capGet caps 0⟩

/-- Header demotion, level two (flags gm). -/
def header2Rule : RRule :=
  ⟨[RItem.bol, RItem.lit ("## ".data), dotPlusCap, RItem.eolm],
   fun caps => ("### ".data) ++ capGet caps 0⟩

/-- Header demotion, level one (flags gm). -/
def header1Rule : RRule :=
  ⟨[RItem.bol, RItem.lit ("# ".data), dotPlusCap, RItem.eolm],
   fun caps => ("## ".data) ++ capGet caps 0⟩

/-- Inner replacement of the key-value rule: collapse whitespace runs to a
single space. -/
def wsCollapseRule : RRule :=
  ⟨[RItem.cls isWs 1 none false false], fun _ => (" ".data)⟩

/-- Inner replacement of the key-value rule: delete stop words and the
whitespace after them (flags gi). -/
def stopStripRule : RRule :=
  ⟨[RItem.wb, RItem.alts stopWordsList true true, RItem.wb, wsStar], fun _ => []⟩

/-- Replacement function of the key-value rule: collapse whitespace, strip
stop words, keep the first 50 characters, append an ellipsis and a newline. -/
def kvSubst (caps : List (List Char)) : List Char :=
  let key := capGet caps 0
  let value := capGet caps 1
  let compressed := (jsReplace stopStripRule (jsReplace wsCollapseRule value)).take 50
  key ++ (": ".data) ++ compressed ++ ("...".data) ++ ("\n".data)

/-- Key-value compaction of convertToAINotation: a lazy key, a literal colon
space, a lazy value of at least 100 characters, then a newline or the end of
input (flag g). -/
def kvRule : RRule :=
  ⟨[dotLazyCap, RItem.lit (": ".data), RItem.cls isDotChar 100 none true true, RItem.nlOrEnd],
   kvSubst⟩

/-- convertToAINotation from the source: bullet normalization, the two header
demotions, then key-value compaction; the filename argument is unused in the
source body and omitted here. -/
def convertToAI (content : List Char) : List Char :=
  jsReplace kvRule (jsReplace header1Rule (jsReplace header2Rule (jsReplace bulletRule content)))

/-- The in-memory text produced by compressFile: applyCompressionRules then
convertToAINotation. -/
def compressedOf (content filename : List Char) : List Char :=
  convertToAI (applyCompressionRules content filename)

/-- The savings field of compressFile:
Math.round(((originalTokens - compressedTokens) / originalTokens) * 100).
When originalTokens is zero the JS division yields NaN (the content is empty,
so compressedTokens is also zero), modelled as none. -/
def savingsOf (content filename : List Char) : Option ℤ :=
  let ot := estimateTokens content
  let ct := estimateTokens (compressedOf content filename)
  if ot = 0 then none
  else some (jsMathRound (((ot - ct : ℤ) : ℚ) / (ot : ℚ) * 100))

end AICompressor

namespace WorkspaceCompressor

/-- Math.round(text.length / 4), from the workspace compressor estimateTokens
(note: round, not ceil). -/
def estimateTokens (text : List Char) : ℤ := jsMathRound ((text.length : ℚ) / 4)

/-- Workflow pattern of the workspace compressor (flag g, case-sensitive). -/
def workflowRule : RRule :=
  ⟨[RItem.lit ("When ".data), dotLazyCap, RItem.lit (", ".data), dotLazyCap,
    RItem.lit (":".data), wsStar, RItem.lit ("1.".data), wsStar, dotLazyCap,
    wsStar, RItem.lit ("2.".data), wsStar, dotLazyCap,
    wsStar, RItem.lit ("3.".data), wsStar, dotPlusCap],
   fun caps => capGet caps 0 ++ (" → ".data) ++ capGet caps 2 ++ (" → ".data) ++
     capGet caps 3 ++ (" → ".data) ++ capGet caps 4⟩

/-- Conditional pattern of the workspace compressor (flag g). -/
def conditionalRule : RRule :=
  ⟨[RItem.lit ("If ".data), dotLazyCap, RItem.lit (", then ".data), dotLazyCap,
    RItem.lit (". If ".data), dotLazyCap, RItem.lit (", then ".data), dotLazyCap,
    RItem.lit (". Otherwise ".data), dotLazyCap, RItem.lit (".".data)],
   fun caps => capGet caps 0 ++ ("? ".data) ++ capGet caps 1 ++ (" : ".data) ++
     capGet caps 2 ++ ("? ".data) ++ capGet caps 3 ++ (" : ".data) ++ capGet caps 4⟩

/-- Bullet-list pattern of the workspace compressor (flags gm). -/
def bulletListRule : RRule :=
  ⟨[RItem.bol, RItem.lit ("-".data), wsPlus, dotLazyCap, RItem.eolm],
   fun caps => ("• ".data) ++ capGet caps 0⟩

/-- Headers pattern of the workspace compressor (flags gm). -/
def headersRule : RRule :=
  ⟨[RItem.bol, RItem.lit ("#".data), wsPlus, dotLazyCap, RItem.eolm],
   fun caps => ("## ".data) ++ capGet caps 0⟩

/-- Collapse of three-or-more newlines to exactly two (flag g). -/
def blankRule : RRule :=
  ⟨[RItem.cls (fun c => c = '\n') 3 none false false], fun _ => ("\n\n".data)⟩

/-- applyGeneralCompression: the four table patterns in insertion order
(workflow, conditional, bulletList, headers), then the newline collapse. -/
def applyGeneralCompression (content : List Char) : List Char :=
  jsReplace blankRule
    (jsReplace headersRule
      (jsReplace bulletListRule
        (jsReplace conditionalRule
          (jsReplace workflowRule content))))

/-- Fixed text returned by the workspace compressMemoryFile regardless of its
argument (copied verbatim from the source template literal, including the two
trailing spaces after lead-tracking). -/
def memoryTemplate : List Char :=
  ("# MEMORY.md - Key Context\n\nRUBEN: direct/practical, values-efficiency, proactive-help\nMORNING: greeting → review(todos+pending+urgent)\nVOICE: mobile-preferred, concise\n\nTASKS-RESEARCH: crypto-whale-watch, twitter-monitor, RSS-feeds, gov-RFPs\nTASKS-BUSINESS: email-access, calendar, lead-tracking  \nTASKS-DEV: github-cli, git-automation\n\nMPP: psych-testing, Lexington-SC, VA-contracts, website-pending\nORO: veteran-remodel, Columbia+Charlotte, kitchen+bath+floor, struggling-financially\n\nGOOGLE-ADS-ACTIVE: Leads-Search-1($5/day) + Leads-PMax-1($5/day), conversions-fixed-Feb1\nORO-INFO: (803)868-9769, office@orohomes.net, GA4:513969401\n\nSECURITY: Tailscale-3devices, RDP-fixed, Malwarebytes-active\nSYSTEM: Sonnet4-default, Gemini-cron, Opus-subagents-only, token-optimization-active\n\nLESSONS: delegate-heavy-work, proactive-data-ready, cron-Sonnet-not-Gemini".data)

/-- Workspace compressMemoryFile: ignores the content and returns the fixed
template. -/
def compressMemoryFile (_content : List Char) : List Char := memoryTemplate

/-- Fixed text returned by the workspace compressUserFile (verbatim from the
source, including the two trailing spaces after America/New_York). -/
def userTemplate : List Char :=
  ("## USER.md - About Your Human\n• **Name:** Ruben\n• **TZ:** America/New_York  \n• **Telegram:** @JayR2023 (1626735952)\n\n### Context\nROLES: IT-eng(day-job) + COO(MPP) + owner(ORO-priority)\nREALITY: ORO-struggling, time-limited, debt+employees\nGOALS: 1)ORO-revenue-URGENT 2)automate-backend 3)buy-time\n\nSOLVE: momentum→blocker?→brainstorm→optimize(closest+easiest+fastest)\nDECIDE: data? data-backed : simulate-outcomes".data)

/-- Workspace compressUserFile: ignores the content and returns the fixed
template. -/
def compressUserFile (_content : List Char) : List Char := userTemplate

/-- First pattern of the workspace compressAgentsFile (flag g). -/
def agentsR1 : RRule :=
  ⟨[RItem.lit ("When you receive ".data), dotLazyCap, RItem.lit (", ".data),
    dotLazyCap, RItem.lit (":".data)],
   fun caps => capGet caps 0 ++ (" → ".data) ++ capGet caps 1 ++ (":".data)⟩

/-- Second pattern of the workspace compressAgentsFile (flag g). -/
def agentsR2 : RRule :=
  ⟨[RItem.lit ("If ".data), dotLazyCap, RItem.lit (", ".data), dotLazyCap,
    RItem.lit (". If ".data), dotLazyCap, RItem.lit (", ".data), dotLazyCap,
    RItem.lit (".".data)],
   fun caps => capGet caps 0 ++ ("? ".data) ++ capGet caps 1 ++ (" : ".data) ++
     capGet caps 2 ++ ("? ".data) ++ capGet caps 3⟩

/-- Workspace compressAgentsFile: two sequential replacements. -/
def compressAgentsFile (content : List Char) : List Char :=
  jsReplace agentsR2 (jsReplace agentsR1 content)

/-- compressContent: exact filename dispatch, falling back to the general
compression. -/
def compressContent (content filename : List Char) : List Char :=
  if filename = ("MEMORY.md".data) then compressMemoryFile content
  else if filename = ("USER.md".data) then compressUserFile content
  else if filename = ("AGENTS.md".data) then compressAgentsFile content
  else applyGeneralCompression content

/-- Outcome of the workspace compressFile for one file: the resulting file
contents on disk, the success flag, and the reported percentage. -/
structure WCResult where
  fileAfter : List Char
  success : Bool
  percentageSaved : Option ℤ

/-- compressFile of the workspace compressor: write the compressed content
only when it is strictly smaller in estimated tokens; otherwise delete the
backup, leave the file as it was, and report no compression benefit. -/
def compressFileModel (filename content : List Char) : WCResult :=
  let originalTokens := estimateTokens content
  let compressedContent := compressContent content filename
  let compressedTokens := estimateTokens compressedContent
  if compressedTokens < originalTokens then
    { fileAfter := compressedContent
      success := true
      percentageSaved :=
        some (jsMathRound (((originalTokens - compressedTokens : ℤ) : ℚ) /
          (originalTokens : ℚ) * 100)) }
  else
    { fileAfter := content, success := false, percentageSaved := none }

end WorkspaceCompressor

namespace TokenAnalyzer

/-- Math.ceil(text.length / 4), from analyzer.js estimateTokens. -/
def estimateTokens (text : List Char) : ℤ := jsMathCeil ((text.length : ℚ) / 4)

/-- Verbose-phrase markers of assessCompressionPotential (flags gi). -/
def verboseList : List (List Char) :=
  [("When".data), ("Please".data), ("In order to".data), ("It is important".data),
   ("You should".data), ("This is".data), ("That is".data)]

/-- Verbose indicator pattern: word-boundary alternation. -/
def verboseItems : List RItem :=
  [RItem.wb, RItem.alts verboseList true false, RItem.wb]

/-- Repetitive indicator pattern: stop words between word boundaries. -/
def repetitiveItems : List RItem :=
  [RItem.wb, RItem.alts stopWordsList true false, RItem.wb]

/-- Filler indicator pattern: filler adverbs between word boundaries. -/
def fillerItems : List RItem :=
  [RItem.wb, RItem.alts fillerList true false, RItem.wb]

/-- Bullet-point indicator pattern: line start, optional whitespace, one
bullet character (flags gm). -/
def bulletPointItems : List RItem :=
  [RItem.bol, wsStar, RItem.cls isBulletChar 1 (some 1) false false]

/-- The common workspace filenames of the default configuration. -/
def knownWorkspaceFiles : List (List Char) :=
  [("SOUL.md".data), ("USER.md".data), ("AGENTS.md".data), ("MEMORY.md".data),
   ("HEARTBEAT.md".data), ("TOOLS.md".data), ("IDENTITY.md".data)]

/-- shouldExcludeFile with the default exclude list.  Glob patterns are
converted by replacing star with dot-star and then escaping every dot
(including the one just introduced), so star-dot-backup becomes an unanchored
test for a dot-backup segment, and likewise for star-dot-compressed-dot-md;
the bare names are compared exactly. -/
def shouldExcludeFile (filename : List Char) : Bool :=
  filename = ("README.md".data) || filename = ("CHANGELOG.md".data) ||
  filename = ("LICENSE.md".data) ||
  hasMatchIn [RItem.cls (fun c => c = '.') 0 none false false,
    RItem.lit (".backup".data)] filename ||
  hasMatchIn [RItem.cls (fun c => c = '.') 0 none false false,
    RItem.lit (".compressed.md".data)] filename

/-- Workspace indicator: a level-one heading naming a known workspace file
(flag i). -/
def wsIndicator1 : List RItem :=
  [RItem.litCI ("# ".data),
   RItem.alts [("SOUL".data), ("USER".data), ("AGENTS".data), ("MEMORY".data),
     ("HEARTBEAT".data), ("TOOLS".data), ("IDENTITY".data)] true false,
   RItem.litCI (".md".data)]

/-- Workspace indicator: workspace dot-star context (flag i). -/
def wsIndicator2 : List RItem :=
  [RItem.litCI ("workspace".data), RItem.cls isDotChar 0 none false false,
   RItem.litCI ("context".data)]

/-- Workspace indicator: system dot-star prompt (flag i). -/
def wsIndicator3 : List RItem :=
  [RItem.litCI ("system".data), RItem.cls isDotChar 0 none false false,
   RItem.litCI ("prompt".data)]

/-- Workspace indicator: agent dot-star config (flag i). -/
def wsIndicator4 : List RItem :=
  [RItem.litCI ("agent".data), RItem.cls isDotChar 0 none false false,
   RItem.litCI ("config".data)]

/-- Letter or underscore (the class of capital letters and underscore under
the i flag). -/
def isLetterOrUnderscore (c : Char) : Bool :=
  ('A' ≤ c && c ≤ 'Z') || ('a' ≤ c && c ≤ 'z') || c = '_'

/-- The anchored filename test: one-or-more letters or underscores followed
by the dot-md extension, spanning the whole name (flag i). -/
def looksLikeConfigName (filename : List Char) : Bool :=
  match matchItems [RItem.cls isLetterOrUnderscore 1 none false false,
      RItem.litCI (".md".data)] none filename with
  | some (_, rem, _) => rem.isEmpty
  | none => false

/-- looksLikeConfig: the anchored name shape, or a config, prompt, context or
instruction fragment anywhere in the filename (flag i). -/
def looksLikeConfig (filename : List Char) : Bool :=
  looksLikeConfigName filename ||
  hasMatchIn [RItem.alts [("config".data), ("prompt".data), ("context".data),
    ("instruction".data)] true false] filename

/-- isWorkspaceFile: a known filename, workspace-indicator content, or a
substantial file (over 500 characters) whose name looks like configuration. -/
def isWorkspaceFile (filename content : List Char) : Bool :=
  knownWorkspaceFiles.contains filename ||
  (hasMatchIn wsIndicator1 content || hasMatchIn wsIndicator2 content ||
   hasMatchIn wsIndicator3 content || hasMatchIn wsIndicator4 content) ||
  (500 < content.length && looksLikeConfig filename)

/-- One file of discoverWorkspaceFiles: a markdown file, not excluded, that
passes isWorkspaceFile. -/
def discoveredModel (filename content : List Char) : Bool :=
  endsWithSeg filename (".md".data) && !(shouldExcludeFile filename) &&
  isWorkspaceFile filename content

/-- assessCompressionPotential: the five indicator counts combined with the
source weights, capped at 100 and floored to an integer. -/
def assessCompressionPotential (content : List Char) : ℤ :=
  let verboseMatches := countMatches verboseItems content
  let repetitiveMatches := countMatches repetitiveItems content
  let fillerMatches := countMatches fillerItems content
  let longSentences := ((content.splitOn '.').filter (fun s => 100 < s.length)).length
  let bulletPoints := countMatches bulletPointItems content
  jsMathFloor (min 100
    ((verboseMatches : ℚ) * 2 + (repetitiveMatches : ℚ) * (1 / 2) +
     (fillerMatches : ℚ) * 3 + (longSentences : ℚ) * 5 +
     max 0 (20 - (bulletPoints : ℚ))))

/-- The static modelCosts table: input and output price per million tokens. -/
def modelCosts (model : List Char) : Option (ℚ × ℚ) :=
  if model = ("anthropic/claude-opus-4-5".data) then some (15, 75)
  else if model = ("anthropic/claude-sonnet-4-20250514".data) then some (3, 15)
  else if model = ("google/gemini-2.5-pro".data) then some (5 / 4, 10)
  else none

/-- calculateMonthlySavings with the default config (20 API calls per session,
7 sessions per week, 4.33 weeks per month).  The early return fires when the
model is unknown or tokenSavings is falsy (zero), and returns the number 0. -/
def calculateMonthlySavings (tokenSavings : ℚ) (model : List Char) : ℚ :=
  match modelCosts model with
  | none => 0
  | some costs =>
    if tokenSavings = 0 then 0
    else tokenSavings * 20 * 7 * (433 / 100) * costs.1 / 1000000

/-- Fields of the object returned by calculateMonthlyCosts. -/
structure MonthlyCosts where
  systemPromptPerSession : ℚ
  sessionCost : ℚ
  weekly : ℚ
  monthly : ℚ

/-- calculateMonthlyCosts: none for an unknown model, otherwise the cost
object (150000 average session tokens, 20 system prompt repeats, 15000
average output tokens, 4.33 weeks per month). -/
def calculateMonthlyCosts (systemPromptSize : ℚ) (sessionsPerWeek : ℚ)
    (model : List Char) : Option MonthlyCosts :=
  match modelCosts model with
  | none => none
  | some costs =>
    let systemPromptCost := systemPromptSize * 20 * costs.1 / 1000000
    let sessionCost := 150000 * costs.1 / 1000000 + 15000 * costs.2 / 1000000
    let weeklySystemCost := systemPromptCost * sessionsPerWeek
    let weeklySessionCost := sessionCost * sessionsPerWeek
    some
      { systemPromptPerSession := systemPromptCost
        sessionCost := sessionCost
        weekly := weeklySystemCost + weeklySessionCost
        monthly := (weeklySystemCost + weeklySessionCost) * (433 / 100) }

end TokenAnalyzer

namespace TokenOptimizerSkill

/-- One iteration of the applyCommand loop for a single analyzed file: when
the compression potential exceeds 20 the file is overwritten with the
AICompressor output unconditionally (no token-benefit check); otherwise it is
left alone.  The value is the file contents after the command. -/
def applyFileAction (filename content : List Char) : List Char :=
  if 20 < TokenAnalyzer.assessCompressionPotential content
  then AICompressor.compressedOf content filename
  else content

end TokenOptimizerSkill

/-- The nine generic rewrite rules named by the specification: the six
compressionPatterns, bullet normalization, the header demotions, and the
blank-line collapse. -/
def nineRuleItems : List (List RItem) :=
  [AICompressor.rule1.items, AICompressor.rule2.items, AICompressor.rule3.items,
   AICompressor.rule4.items, AICompressor.rule5.items, AICompressor.rule6.items,
   AICompressor.bulletRule.items, AICompressor.header2Rule.items,
   AICompressor.header1Rule.items, WorkspaceCompressor.blankRule.items]

/-- No trigger of any of the nine specification rules occurs in the text. -/
def noNineRuleTrigger (T : List Char) : Bool :=
  nineRuleItems.all (fun its => !(hasMatchIn its T))

/-- A text free of all nine-rule triggers that the key-value compaction of
convertToAINotation nevertheless rewrites. -/
def kvInput : List Char := ("note: ".data) ++ List.replicate 110 'a'

/-- Input for the C4 counterexample: a discoverable workspace file (it
mentions a system prompt) with compression potential above 20 but no token
benefit from the AICompressor rewrite. -/
def c4content : List Char := ("This is a system prompt.\n# Top".data)

/-- Ceiling of a quarter as natural division. -/
theorem ceilDiv4_eq (n : ℕ) : Int.ceil ((n : ℚ) / 4) = (((n + 3) / 4 : ℕ) : ℤ) := by
  set m : ℕ := (n + 3) / 4 with hm
  have h1 : 4 * m ≤ n + 3 := by omega
  have h2 : n ≤ 4 * m := by omega
  have h1q : (4 : ℚ) * (m : ℚ) ≤ (n : ℚ) + 3 := by exact_mod_cast h1
  have h2q : (n : ℚ) ≤ 4 * (m : ℚ) := by exact_mod_cast h2
  rw [Int.ceil_eq_iff]
  constructor
  · push_cast
    linarith
  · push_cast
    linarith

/-- Half-up rounding of a quarter as natural division. -/
theorem roundDiv4_eq (n : ℕ) :
    Int.floor ((n : ℚ) / 4 + 1 / 2) = (((n + 2) / 4 : ℕ) : ℤ) := by
  set m : ℕ := (n + 2) / 4 with hm
  have h1 : 4 * m ≤ n + 2 := by omega
  have h2 : n + 2 < 4 * m + 4 := by omega
  have h1q : (4 : ℚ) * (m : ℚ) ≤ (n : ℚ) + 2 := by exact_mod_cast h1
  have h2q : (n : ℚ) + 2 < 4 * (m : ℚ) + 4 := by exact_mod_cast h2
  rw [Int.floor_eq_iff]
  constructor
  · push_cast
    linarith
  · push_cast
    linarith

/-- The workspace token estimate is never negative. -/
theorem wcEst_nonneg (l : List Char) : 0 ≤ WorkspaceCompressor.estimateTokens l := by
  unfold WorkspaceCompressor.estimateTokens jsMathRound
  apply Int.floor_nonneg.mpr
  positivity

/-- Evaluation form of the analyzer estimator. -/
theorem taEst_eval (l : List Char) :
    TokenAnalyzer.estimateTokens l = (((l.length + 3) / 4 : ℕ) : ℤ) :=
  ceilDiv4_eq l.length

/-- Evaluation form of the AICompressor estimator. -/
theorem aicEst_eval (l : List Char) :
    AICompressor.estimateTokens l = (((l.length + 3) / 4 : ℕ) : ℤ) :=
  ceilDiv4_eq l.length

/-- Evaluation form of the workspace estimator. -/
theorem wcEst_eval (l : List Char) :
    WorkspaceCompressor.estimateTokens l = (((l.length + 2) / 4 : ℕ) : ℤ) :=
  roundDiv4_eq l.length

/-- Evaluation form of assessCompressionPotential in terms of the five
indicator counts. -/
theorem assess_eval (content : List Char) (v r f L b : ℕ)
    (hv : countMatches TokenAnalyzer.verboseItems content = v)
    (hr : countMatches TokenAnalyzer.repetitiveItems content = r)
    (hf : countMatches TokenAnalyzer.fillerItems content = f)
    (hL : ((content.splitOn '.').filter (fun s => 100 < s.length)).length = L)
    (hb : countMatches TokenAnalyzer.bulletPointItems content = b) :
    TokenAnalyzer.assessCompressionPotential content =
      jsMathFloor (min 100
        ((v : ℚ) * 2 + (r : ℚ) * (1 / 2) + (f : ℚ) * 3 + (L : ℚ) * 5 +
         max 0 (20 - (b : ℚ)))) := by
  simp only [TokenAnalyzer.assessCompressionPotential, hv, hr, hf, hL, hb]

/-- Claim C1, counterexample: the claim says every estimator returns
ceil(length/4), but the workspace compressor uses Math.round, which on the
one-character string returns 0 while ceil(1/4) = 1. -/
theorem C1_counterexample :
    WorkspaceCompressor.estimateTokens ("a".data) = 0 ∧
    TokenAnalyzer.estimateTokens ("a".data) = 1 ∧
    AICompressor.estimateTokens ("a".data) = 1 ∧
    WorkspaceCompressor.estimateTokens ("a".data) ≠ TokenAnalyzer.estimateTokens ("a".data) := by
  refine ⟨?_, ?_, ?_, ?_⟩
  · rw [wcEst_eval]
    decide
  · rw [taEst_eval]
    decide
  · rw [aicEst_eval]
    decide
  · rw [wcEst_eval, taEst_eval]
    decide

/-- Claim C1, amended: TokenAnalyzer.estimateTokens and
AICompressor.estimateTokens return ceil(length/4); the workspace
estimateTokens returns round(length/4), which agrees with the others exactly
when the length is not congruent to 1 mod 4 and is one less otherwise; the
empty string yields 0 in all three. -/
theorem C1_amended :
    (∀ l : List Char, AICompressor.estimateTokens l = TokenAnalyzer.estimateTokens l) ∧
    (∀ l : List Char, TokenAnalyzer.estimateTokens l = (((l.length + 3) / 4 : ℕ) : ℤ)) ∧
    (∀ l : List Char, WorkspaceCompressor.estimateTokens l = (((l.length + 2) / 4 : ℕ) : ℤ)) ∧
    (∀ l : List Char, l.length % 4 ≠ 1 →
      WorkspaceCompressor.estimateTokens l = TokenAnalyzer.estimateTokens l) ∧
    (∀ l : List Char, l.length % 4 = 1 →
      WorkspaceCompressor.estimateTokens l = TokenAnalyzer.estimateTokens l - 1) ∧
    (TokenAnalyzer.estimateTokens [] = 0 ∧ AICompressor.estimateTokens [] = 0 ∧
      WorkspaceCompressor.estimateTokens [] = 0) := by
  have hta : ∀ l : List Char, TokenAnalyzer.estimateTokens l = (((l.length + 3) / 4 : ℕ) : ℤ) :=
    fun l => ceilDiv4_eq l.length
  have hwc : ∀ l : List Char, WorkspaceCompressor.estimateTokens l = (((l.length + 2) / 4 : ℕ) : ℤ) :=
    fun l => roundDiv4_eq l.length
  refine ⟨fun l => rfl, hta, hwc, ?_, ?_, by rw [hta]; decide, by rw [aicEst_eval]; decide,
    by rw [hwc]; decide⟩
  · intro l h
    rw [hta, hwc]
    omega
  · intro l h
    rw [hta, hwc]
    omega

/-- Claim C1, witness for the amended statement at concrete lengths 2 and 5. -/
theorem C1_amended_witness :
    WorkspaceCompressor.estimateTokens ("ab".data) = TokenAnalyzer.estimateTokens ("ab".data) ∧
    WorkspaceCompressor.estimateTokens ("abcde".data) =
      TokenAnalyzer.estimateTokens ("abcde".data) - 1 :=
  ⟨C1_amended.2.2.2.1 ("ab".data) (by decide),
   C1_amended.2.2.2.2.1 ("abcde".data) (by decide)⟩

/-- Claim C7: assessCompressionPotential always returns an integer in the
closed interval from 0 to 100, with the five indicator categories, the
source weights, the cap at 100 and the final floor. -/
theorem C7_assess_bounds :
    ∀ content : List Char,
      0 ≤ TokenAnalyzer.assessCompressionPotential content ∧
      TokenAnalyzer.assessCompressionPotential content ≤ 100 := by
  intro content
  simp only [TokenAnalyzer.assessCompressionPotential, jsMathFloor]
  constructor
  · apply Int.floor_nonneg.mpr
    apply le_min
    · norm_num
    · refine add_nonneg (add_nonneg (add_nonneg (add_nonneg ?_ ?_) ?_) ?_) ?_
      · positivity
      · positivity
      · positivity
      · positivity
      · exact le_max_left 0 _
  · calc
      Int.floor (min (100 : ℚ) _) ≤ Int.floor ((100 : ℚ)) :=
        Int.floor_le_floor (min_le_left _ _)
      _ = 100 := by norm_num

/-- Claim C10: the empty string scores exactly 20, and any text with zero
bullet-point matches scores at least 20, because of the
max(0, 20 - bulletCount) term. -/
theorem C10_empty_and_no_bullets :
    TokenAnalyzer.assessCompressionPotential [] = 20 ∧
    ∀ content : List Char,
      countMatches TokenAnalyzer.bulletPointItems content = 0 →
      20 ≤ TokenAnalyzer.assessCompressionPotential content := by
  constructor
  · rw [assess_eval [] 0 0 0 0 0 (by decide) (by decide) (by decide) (by decide) (by decide)]
    norm_num [jsMathFloor]
  · intro content h
    simp only [TokenAnalyzer.assessCompressionPotential, jsMathFloor, h, Nat.cast_zero]
    rw [Int.le_floor]
    apply le_min
    · norm_num
    · have hmax : max (0 : ℚ) (20 - 0) = 20 := by norm_num
      rw [sub_zero] at hmax ⊢
      have hv : (0 : ℚ) ≤ (countMatches TokenAnalyzer.verboseItems content : ℚ) * 2 := by
        positivity
      have hr : (0 : ℚ) ≤ (countMatches TokenAnalyzer.repetitiveItems content : ℚ) * (1 / 2) := by
        positivity
      have hf : (0 : ℚ) ≤ (countMatches TokenAnalyzer.fillerItems content : ℚ) * 3 := by
        positivity
      have hl : (0 : ℚ) ≤
          (((content.splitOn '.').filter (fun s => 100 < s.length)).length : ℚ) * 5 := by
        positivity
      have hm : max (0 : ℚ) 20 = 20 := by norm_num
      push_cast
      linarith [hm]

/-- Claim C10, witness: a concrete bullet-free text scores at least 20. -/
theorem C10_witness :
    countMatches TokenAnalyzer.bulletPointItems ("hi".data) = 0 ∧
    20 ≤ TokenAnalyzer.assessCompressionPotential ("hi".data) :=
  ⟨by decide, C10_empty_and_no_bullets.2 ("hi".data) (by decide)⟩

/-- Claim C9: the workspace compression of MEMORY.md and of USER.md is a
fixed hardcoded template, independent of the input content. -/
theorem C9_fixed_templates :
    (∀ c1 c2 : List Char,
      WorkspaceCompressor.compressContent c1 ("MEMORY.md".data) =
        WorkspaceCompressor.compressContent c2 ("MEMORY.md".data)) ∧
    (∀ c1 c2 : List Char,
      WorkspaceCompressor.compressContent c1 ("USER.md".data) =
        WorkspaceCompressor.compressContent c2 ("USER.md".data)) ∧
    (∀ c : List Char, WorkspaceCompressor.compressContent c ("MEMORY.md".data) =
      WorkspaceCompressor.memoryTemplate) ∧
    (∀ c : List Char, WorkspaceCompressor.compressContent c ("USER.md".data) =
      WorkspaceCompressor.userTemplate) := by
  have hm : ∀ c : List Char, WorkspaceCompressor.compressContent c ("MEMORY.md".data) =
      WorkspaceCompressor.memoryTemplate := by
    intro c
    unfold WorkspaceCompressor.compressContent
    rw [if_pos rfl]
    rfl
  have hu : ∀ c : List Char, WorkspaceCompressor.compressContent c ("USER.md".data) =
      WorkspaceCompressor.userTemplate := by
    intro c
    unfold WorkspaceCompressor.compressContent
    rw [if_neg (by decide), if_pos rfl]
    rfl
  exact ⟨fun c1 c2 => (hm c1).trans (hm c2).symm,
         fun c1 c2 => (hu c1).trans (hu c2).symm, hm, hu⟩

/-- Claim C8: the filler rule deletes really and very as whole words together
with the following whitespace, so the example sentence compresses exactly to
the expected text with no doubled spaces, through the whole generic
pipeline. -/
theorem C8_filler_example :
    AICompressor.compressedOf ("This is really very important.".data) ("NOTES.md".data) =
      ("This is important.".data) := by
  decide

/-- Claim C2, counterexample: the workspace compressMemoryFile does not
return an unmatched input unchanged; it always returns the fixed template,
even on the one-character input. -/
theorem C2_counterexample :
    WorkspaceCompressor.compressMemoryFile ("x".data) ≠ ("x".data) := by
  decide

/-- Claim C2, amended: the AICompressor file-specific rewrites are regex
replacements, so a text in which their block patterns fire nowhere is
returned unchanged (likewise the workspace compressAgentsFile); but the
workspace compressMemoryFile and compressUserFile ignore their input and
always return a fixed template. -/
theorem C2_amended :
    (∀ T : List Char, hasMatchIn AICompressor.userP1.items T = false →
      hasMatchIn AICompressor.userP2.items T = false →
      AICompressor.compressUserFile T = T) ∧
    (∀ T : List Char, hasMatchIn AICompressor.memP1.items T = false →
      hasMatchIn AICompressor.memP2.items T = false →
      AICompressor.compressMemoryFile T = T) ∧
    (∀ T : List Char, hasMatchIn AICompressor.agentsP.items T = false →
      AICompressor.compressAgentsFile T = T) ∧
    (∀ T : List Char, hasMatchIn WorkspaceCompressor.agentsR1.items T = false →
      hasMatchIn WorkspaceCompressor.agentsR2.items T = false →
      WorkspaceCompressor.compressAgentsFile T = T) ∧
    (∀ c : List Char,
      WorkspaceCompressor.compressMemoryFile c = WorkspaceCompressor.memoryTemplate) ∧
    (∀ c : List Char,
      WorkspaceCompressor.compressUserFile c = WorkspaceCompressor.userTemplate) := by
  refine ⟨?_, ?_, ?_, ?_, fun c => rfl, fun c => rfl⟩
  · intro T h1 h2
    unfold AICompressor.compressUserFile
    rw [jsReplace_of_no_match _ _ h1, jsReplace_of_no_match _ _ h2]
  · intro T h1 h2
    unfold AICompressor.compressMemoryFile
    rw [jsReplace_of_no_match _ _ h1, jsReplace_of_no_match _ _ h2]
  · intro T h1
    exact jsReplace_of_no_match _ _ h1
  · intro T h1 h2
    unfold WorkspaceCompressor.compressAgentsFile
    rw [jsReplace_of_no_match _ _ h1, jsReplace_of_no_match _ _ h2]

/-- Claim C2, witness: a concrete text none of the block patterns match is
returned unchanged by all four replacement-based file rewrites. -/
theorem C2_amended_witness :
    AICompressor.compressUserFile ("hello world".data) = ("hello world".data) ∧
    AICompressor.compressMemoryFile ("hello world".data) = ("hello world".data) ∧
    AICompressor.compressAgentsFile ("hello world".data) = ("hello world".data) ∧
    WorkspaceCompressor.compressAgentsFile ("hello world".data) = ("hello world".data) :=
  ⟨C2_amended.1 ("hello world".data) (by decide) (by decide),
   C2_amended.2.1 ("hello world".data) (by decide) (by decide),
   C2_amended.2.2.1 ("hello world".data) (by decide),
   C2_amended.2.2.2.1 ("hello world".data) (by decide) (by decide)⟩

/-- Claim C5, counterexample: a text containing none of the nine spec rule
triggers that the pipeline still rewrites, because convertToAINotation also
carries the key-value compaction rule; the workspace general compression
leaves the same text unchanged. -/
theorem C5_counterexample :
    noNineRuleTrigger kvInput = true ∧
    AICompressor.compressedOf kvInput ("NOTES.md".data) ≠ kvInput ∧
    WorkspaceCompressor.applyGeneralCompression kvInput = kvInput := by
  refine ⟨by decide, by decide, by decide⟩

/-- Claim C5, amended: no-op safety holds per rewriter relative to its own
full rule list: the AICompressor generic pipeline is the identity on texts
where none of its six patterns, the bullet rule, the two header rules, or
the key-value compaction fire (for a filename that selects no file-specific
block), and the workspace applyGeneralCompression is the identity on texts
where none of its four table patterns or the blank-line collapse fire. -/
theorem C5_amended :
    (∀ T fname : List Char,
      containsSeg fname ("USER.md".data) = false →
      containsSeg fname ("MEMORY.md".data) = false →
      containsSeg fname ("AGENTS.md".data) = false →
      hasMatchIn AICompressor.rule1.items T = false →
      hasMatchIn AICompressor.rule2.items T = false →
      hasMatchIn AICompressor.rule3.items T = false →
      hasMatchIn AICompressor.rule4.items T = false →
      hasMatchIn AICompressor.rule5.items T = false →
      hasMatchIn AICompressor.rule6.items T = false →
      hasMatchIn AICompressor.bulletRule.items T = false →
      hasMatchIn AICompressor.header2Rule.items T = false →
      hasMatchIn AICompressor.header1Rule.items T = false →
      hasMatchIn AICompressor.kvRule.items T = false →
      AICompressor.compressedOf T fname = T) ∧
    (∀ T : List Char,
      hasMatchIn WorkspaceCompressor.workflowRule.items T = false →
      hasMatchIn WorkspaceCompressor.conditionalRule.items T = false →
      hasMatchIn WorkspaceCompressor.bulletListRule.items T = false →
      hasMatchIn WorkspaceCompressor.headersRule.items T = false →
      hasMatchIn WorkspaceCompressor.blankRule.items T = false →
      WorkspaceCompressor.applyGeneralCompression T = T) := by
  constructor
  · intro T fname hfu hfm hfa h1 h2 h3 h4 h5 h6 hb hh2 hh1 hkv
    have hgen : AICompressor.applyGenericPatterns T = T := by
      unfold AICompressor.applyGenericPatterns AICompressor.genericRules
      simp only [List.foldl]
      rw [jsReplace_of_no_match _ _ h1, jsReplace_of_no_match _ _ h2,
          jsReplace_of_no_match _ _ h3, jsReplace_of_no_match _ _ h4,
          jsReplace_of_no_match _ _ h5, jsReplace_of_no_match _ _ h6]
    have hacr : AICompressor.applyCompressionRules T fname = T := by
      unfold AICompressor.applyCompressionRules
      rw [if_neg (by simp [hfu]), if_neg (by simp [hfm]), if_neg (by simp [hfa])]
      exact hgen
    show AICompressor.convertToAI (AICompressor.applyCompressionRules T fname) = T
    rw [hacr]
    unfold AICompressor.convertToAI
    rw [jsReplace_of_no_match _ _ hb, jsReplace_of_no_match _ _ hh2,
        jsReplace_of_no_match _ _ hh1, jsReplace_of_no_match _ _ hkv]
  · intro T h1 h2 h3 h4 h5
    unfold WorkspaceCompressor.applyGeneralCompression
    rw [jsReplace_of_no_match _ _ h1, jsReplace_of_no_match _ _ h2,
        jsReplace_of_no_match _ _ h3, jsReplace_of_no_match _ _ h4,
        jsReplace_of_no_match _ _ h5]

/-- Claim C5, witness: a concrete trigger-free text passes through both
rewriters unchanged. -/
theorem C5_amended_witness :
    AICompressor.compressedOf ("plain text".data) ("NOTES.md".data) = ("plain text".data) ∧
    WorkspaceCompressor.applyGeneralCompression ("plain text".data) = ("plain text".data) :=
  ⟨C5_amended.1 ("plain text".data) ("NOTES.md".data) (by decide) (by decide) (by decide)
     (by decide) (by decide) (by decide) (by decide) (by decide) (by decide) (by decide)
     (by decide) (by decide) (by decide),
   C5_amended.2 ("plain text".data) (by decide) (by decide) (by decide) (by decide) (by decide)⟩

/-- Claim C3, counterexample: the AICompressor savings computation has no
division-by-zero guard; on empty input it divides zero by zero (NaN,
modelled as none), not the claimed 0. -/
theorem C3_counterexample :
    AICompressor.savingsOf [] ("EMPTY.md".data) = none ∧
    AICompressor.savingsOf [] ("EMPTY.md".data) ≠ some 0 := by
  have h0 : AICompressor.estimateTokens ([] : List Char) = 0 := by
    rw [aicEst_eval]
    decide
  have hn : AICompressor.savingsOf [] ("EMPTY.md".data) = none := by
    simp [AICompressor.savingsOf, h0]
  exact ⟨hn, by rw [hn]; decide⟩

/-- Claim C3, amended: when originalTokens is nonzero the AICompressor
savings equals round((original - compressed) / original * 100); when it is
zero the result is NaN (none), not 0; the workspace compressFile computes a
percentage only on the strictly-smaller branch, where originalTokens is
positive, and reports none otherwise. -/
theorem C3_amended :
    (∀ content fname : List Char, AICompressor.estimateTokens content ≠ 0 →
      AICompressor.savingsOf content fname =
        some (jsMathRound (((AICompressor.estimateTokens content -
          AICompressor.estimateTokens (AICompressor.compressedOf content fname) : ℤ) : ℚ) /
          ((AICompressor.estimateTokens content : ℤ) : ℚ) * 100))) ∧
    (∀ content fname : List Char, AICompressor.estimateTokens content = 0 →
      AICompressor.savingsOf content fname = none) ∧
    (∀ fname content : List Char,
      (WorkspaceCompressor.compressFileModel fname content).success = true →
      0 < WorkspaceCompressor.estimateTokens content ∧
      (WorkspaceCompressor.compressFileModel fname content).percentageSaved =
        some (jsMathRound (((WorkspaceCompressor.estimateTokens content -
          WorkspaceCompressor.estimateTokens (WorkspaceCompressor.compressContent content fname) : ℤ) : ℚ) /
          ((WorkspaceCompressor.estimateTokens content : ℤ) : ℚ) * 100))) := by
  refine ⟨?_, ?_, ?_⟩
  · intro content fname h
    simp only [AICompressor.savingsOf]
    rw [if_neg h]
  · intro content fname h
    simp only [AICompressor.savingsOf]
    rw [if_pos h]
  · intro fname content hs
    by_cases hlt : WorkspaceCompressor.estimateTokens
        (WorkspaceCompressor.compressContent content fname) <
        WorkspaceCompressor.estimateTokens content
    · refine ⟨lt_of_le_of_lt (wcEst_nonneg _) hlt, ?_⟩
      simp only [WorkspaceCompressor.compressFileModel]
      rw [if_pos hlt]
    · exfalso
      simp only [WorkspaceCompressor.compressFileModel] at hs
      rw [if_neg hlt] at hs
      simp at hs

/-- Claim C3, witness: concrete instantiations of all three amended parts. -/
theorem C3_amended_witness :
    AICompressor.savingsOf ("aaaa".data) ("X.md".data) =
      some (jsMathRound (((AICompressor.estimateTokens ("aaaa".data) -
        AICompressor.estimateTokens (AICompressor.compressedOf ("aaaa".data) ("X.md".data)) : ℤ) : ℚ) /
        ((AICompressor.estimateTokens ("aaaa".data) : ℤ) : ℚ) * 100)) ∧
    AICompressor.savingsOf [] ("Y.md".data) = none ∧
    (0 < WorkspaceCompressor.estimateTokens ("a\n\n\n\nb".data) ∧
      (WorkspaceCompressor.compressFileModel ("N.md".data) ("a\n\n\n\nb".data)).percentageSaved =
        some (jsMathRound (((WorkspaceCompressor.estimateTokens ("a\n\n\n\nb".data) -
          WorkspaceCompressor.estimateTokens
            (WorkspaceCompressor.compressContent ("a\n\n\n\nb".data) ("N.md".data)) : ℤ) : ℚ) /
          ((WorkspaceCompressor.estimateTokens ("a\n\n\n\nb".data) : ℤ) : ℚ) * 100))) :=
  ⟨C3_amended.1 ("aaaa".data) ("X.md".data) (by rw [aicEst_eval]; decide),
   C3_amended.2.1 [] ("Y.md".data) (by rw [aicEst_eval]; decide),
   C3_amended.2.2 ("N.md".data) ("a\n\n\n\nb".data) (by
     have hlt : WorkspaceCompressor.estimateTokens
         (WorkspaceCompressor.compressContent ("a\n\n\n\nb".data) ("N.md".data)) <
         WorkspaceCompressor.estimateTokens ("a\n\n\n\nb".data) := by
       rw [wcEst_eval, wcEst_eval]
       decide
     simp only [WorkspaceCompressor.compressFileModel]
     rw [if_pos hlt])⟩

/-- Claim C4, counterexample: a file the analyzer discovers, whose rewrite
is not strictly shorter in tokens (its compression potential still exceeds
20), which the skill applyCommand nevertheless overwrites with different
content. -/
theorem C4_counterexample :
    TokenAnalyzer.discoveredModel ("NOTES.md".data) c4content = true ∧
    20 < TokenAnalyzer.assessCompressionPotential c4content ∧
    ¬ (AICompressor.estimateTokens (AICompressor.compressedOf c4content ("NOTES.md".data)) <
        AICompressor.estimateTokens c4content) ∧
    TokenOptimizerSkill.applyFileAction ("NOTES.md".data) c4content ≠ c4content := by
  have hgt : 20 < TokenAnalyzer.assessCompressionPotential c4content := by
    rw [assess_eval c4content 1 0 0 0 0 (by decide) (by decide) (by decide) (by decide)
      (by decide)]
    norm_num [jsMathFloor]
  refine ⟨by decide, hgt, ?_, ?_⟩
  · rw [aicEst_eval, aicEst_eval]
    decide
  · unfold TokenOptimizerSkill.applyFileAction
    rw [if_pos hgt]
    decide

/-- Claim C4, amended: the workspace compressFile honors the guard: when the
rewritten text is not strictly shorter in estimated tokens, the file is left
untouched, no percentage is computed, and no compression benefit is
reported; the skill applyCommand, by contrast, overwrites every file whose
compression potential exceeds 20 without any token-benefit check (see the
counterexample). -/
theorem C4_amended :
    ∀ fname content : List Char,
      ¬ (WorkspaceCompressor.estimateTokens (WorkspaceCompressor.compressContent content fname) <
          WorkspaceCompressor.estimateTokens content) →
      (WorkspaceCompressor.compressFileModel fname content).fileAfter = content ∧
      (WorkspaceCompressor.compressFileModel fname content).success = false ∧
      (WorkspaceCompressor.compressFileModel fname content).percentageSaved = none := by
  intro fname content h
  simp only [WorkspaceCompressor.compressFileModel]
  rw [if_neg h]
  exact ⟨rfl, rfl, rfl⟩

/-- Claim C4, witness: a file with no token benefit is left untouched by the
workspace compressFile. -/
theorem C4_amended_witness :
    (WorkspaceCompressor.compressFileModel ("X.md".data) ("abc".data)).fileAfter = ("abc".data) ∧
    (WorkspaceCompressor.compressFileModel ("X.md".data) ("abc".data)).success = false ∧
    (WorkspaceCompressor.compressFileModel ("X.md".data) ("abc".data)).percentageSaved = none :=
  C4_amended ("X.md".data) ("abc".data) (by rw [wcEst_eval, wcEst_eval]; decide)

/-- Claim C6, counterexample: for an unrecognized model id the pricing
lookup is indeed none, but calculateMonthlySavings returns the number 0, not
null or undefined. -/
theorem C6_counterexample :
    TokenAnalyzer.modelCosts ("unknown/model".data) = none ∧
    TokenAnalyzer.calculateMonthlySavings 100 ("unknown/model".data) = 0 := by
  constructor
  · rfl
  · rfl

/-- Claim C6, amended: for an unknown model id, calculateMonthlyCosts returns
none (signaling unknown cost), but calculateMonthlySavings returns the
number 0 for every token amount (it also returns 0 when the token amount is
zero). -/
theorem C6_amended :
    ∀ model : List Char, TokenAnalyzer.modelCosts model = none →
      (∀ systemPromptSize sessionsPerWeek : ℚ,
        TokenAnalyzer.calculateMonthlyCosts systemPromptSize sessionsPerWeek model = none) ∧
      (∀ tokenSavings : ℚ, TokenAnalyzer.calculateMonthlySavings tokenSavings model = 0) := by
  intro model h
  constructor
  · intro sps spw
    unfold TokenAnalyzer.calculateMonthlyCosts
    rw [h]
  · intro t
    unfold TokenAnalyzer.calculateMonthlySavings
    rw [h]

/-- Claim C6, witness: concrete unknown model id. -/
theorem C6_amended_witness :
    TokenAnalyzer.calculateMonthlyCosts 5 7 ("foo/bar".data) = none ∧
    TokenAnalyzer.calculateMonthlySavings 3 ("foo/bar".data) = 0 :=
  ⟨(C6_amended ("foo/bar".data) rfl).1 5 7,
   (C6_amended ("foo/bar".data) rfl).2 3⟩

end TokenSaver
